import Mathlib

/-!
Shallow embedding of the journalbeat core pipeline (Go sources:
`beater/extension.go`, the config package and the main beater file) and
proofs about it.  Machine integers are modelled as `Nat`/`Int` with explicit
reductions modulo `2 ^ 32` / `2 ^ 64` where Go overflow matters; Go `nil`
interface assertions (panics) are modelled by `Option`-valued step functions
returning `none`.
-/

namespace Journalbeat

/-- Normalized event record (`common.MapStr` restricted to the keys the core
pipeline reads or writes).  A `none` field models an absent map key. -/
structure MapStr where
  message : Option String := none
  logBufferingType : Option String := none
  cursor : Option String := none
  utcTimestamp : Option Int := none
  container_tag : Option String := none
  type : Option String := none
  input_type : Option String := none
  deriving DecidableEq, Repr

/-- Reassembly holding slot (`LogBuffer` in `beater/extension.go`):
arrival time (modelled as an abstract `Int` instant), the accumulating
event and the grouping key. -/
structure LogBuffer where
  time : Int
  logEvent : MapStr
  logType : String
  deriving DecidableEq, Repr

/-- UTF-8 encoding of one character, as the list of its byte values.
Go strings are byte strings; `hash` consumes the UTF-8 bytes. -/
def utf8EncodeChar (c : Char) : List Nat :=
  let n := c.toNat
  if n < 0x80 then [n]
  else if n < 0x800 then
    [0xC0 ||| (n >>> 6), 0x80 ||| (n &&& 0x3F)]
  else if n < 0x10000 then
    [0xE0 ||| (n >>> 12), 0x80 ||| ((n >>> 6) &&& 0x3F), 0x80 ||| (n &&& 0x3F)]
  else
    [0xF0 ||| (n >>> 18), 0x80 ||| ((n >>> 12) &&& 0x3F),
      0x80 ||| ((n >>> 6) &&& 0x3F), 0x80 ||| (n &&& 0x3F)]

/-- One step of the 32-bit FNV-1a hash: xor the byte in, multiply by the
FNV prime, reduce modulo `2 ^ 32`. -/
def fnv1aStep (h b : Nat) : Nat := ((h ^^^ b) * 16777619) % 2 ^ 32

/-- The function `hash` of `beater/extension.go`: 32-bit FNV-1a over the
UTF-8 bytes of the string.  Go returns `int(h.Sum32())`, a non-negative
value below `2 ^ 32` on 64-bit platforms, modelled as `Nat`. -/
def hash (s : String) : Nat :=
  s.toList.foldl (fun h c => (utf8EncodeChar c).foldl fnv1aStep h) 2166136261

/-- The function `getPartition` of `beater/extension.go`: partition by the
hash of the first present of `container_tag`, `logBufferingType`, `type`,
modulo the partition count; `0` when none of the three keys is present. -/
def getPartition (lb : LogBuffer) (numPartitions : Nat) : Nat :=
  match lb.logEvent.container_tag with
  | some tag => hash tag % numPartitions
  | none =>
    match lb.logEvent.logBufferingType with
    | some buftype => hash buftype % numPartitions
    | none =>
      match lb.logEvent.type with
      | some eventtype => hash eventtype % numPartitions
      | none => 0

/-- Key selection used by `getPartition`: first present of `container_tag`,
`logBufferingType`, `type`. -/
def partitionKey (e : MapStr) : Option String :=
  match e.container_tag with
  | some tag => some tag
  | none =>
    match e.logBufferingType with
    | some buftype => some buftype
    | none => e.type

/-- A concrete event whose partition key is `"docker-abc"`, used in the
concrete partition computations below. -/
def dockerAbcEvent : MapStr := { container_tag := some "docker-abc" }

/-- The partition is the hash of the selected key modulo `N`, or `0` when
no key field is present. -/
theorem getPartition_eq (lb : LogBuffer) (N : Nat) :
    getPartition lb N =
      match partitionKey lb.logEvent with
      | some k => hash k % N
      | none => 0 := by
  unfold getPartition partitionKey
  rcases lb.logEvent.container_tag with _ | tag
  · rcases lb.logEvent.logBufferingType with _ | bt
    · rcases lb.logEvent.type with _ | et <;> rfl
    · rfl
  · rfl

/-- C3 counterexample: the 32-bit FNV-1a hash of `"docker-abc"` is
`219964480`, which is `0` modulo `4`, so with `N = 4` the partition of an
event whose key is `"docker-abc"` is `0`, not `2` as the claim states. -/
theorem c3_docker_abc_partition_is_not_two :
    hash "docker-abc" = 219964480 ∧
    getPartition ⟨0, dockerAbcEvent, "docker-abc"⟩ 4 = 0 ∧
    getPartition ⟨0, dockerAbcEvent, "docker-abc"⟩ 4 ≠ 2 := by
  refine ⟨by decide, by decide, by decide⟩

/-- C3 (amended): `getPartition` is FNV-1a of the key modulo `N`, where the
key is the first present of `container_tag`, `logBufferingType`, `type`;
it depends only on that key (pure and stable); and for the key
`"docker-abc"` with `N = 4` the partition is `0`. -/
theorem c3_getPartition_is_fnv1a_mod :
    (∀ (lb : LogBuffer) (N : Nat), 0 < N →
      ∀ k, partitionKey lb.logEvent = some k → getPartition lb N = hash k % N)
    ∧ (∀ (lb lb' : LogBuffer) (N : Nat),
        partitionKey lb.logEvent = partitionKey lb'.logEvent →
        getPartition lb N = getPartition lb' N)
    ∧ getPartition ⟨0, dockerAbcEvent, "docker-abc"⟩ 4 = 0 := by
  refine ⟨?_, ?_, by decide⟩
  · intro lb N _ k hk
    rw [getPartition_eq lb N, hk]
  · intro lb lb' N h
    rw [getPartition_eq lb N, getPartition_eq lb' N, h]

/-- C3 witness at a concrete input. -/
theorem c3_getPartition_is_fnv1a_mod_witness :
    getPartition ⟨0, dockerAbcEvent, "x"⟩ 4 = hash "docker-abc" % 4 :=
  c3_getPartition_is_fnv1a_mod.1 ⟨0, dockerAbcEvent, "x"⟩ 4 (by decide)
    "docker-abc" (by decide)

/-- C9: the partition is always below `numPartitions` when there is at
least one partition, and is `0` when none of the three key fields is
present, so indexing the bank of `numPartitions` clients is in bounds. -/
theorem c9_getPartition_in_bounds :
    (∀ (lb : LogBuffer) (N : Nat), 1 ≤ N → getPartition lb N < N)
    ∧ (∀ (lb : LogBuffer) (N : Nat),
        partitionKey lb.logEvent = none → getPartition lb N = 0) := by
  constructor
  · intro lb N hN
    rw [getPartition_eq lb N]
    rcases partitionKey lb.logEvent with _ | k
    · exact hN
    · exact Nat.mod_lt _ hN
  · intro lb N h
    rw [getPartition_eq lb N, h]

/-- C9 witness at a concrete input. -/
theorem c9_getPartition_in_bounds_witness :
    getPartition ⟨0, dockerAbcEvent, "x"⟩ 1 < 1 :=
  c9_getPartition_in_bounds.1 ⟨0, dockerAbcEvent, "x"⟩ 1 (by decide)

/-- The map `journalTypeOutstandingLogBuffer`: at most one `LogBuffer` per
`logBufferingType` key, modelled as an association list with unique keys
(iteration order of the Go map is determinized as list order). -/
abbrev PendingTable := List (String × LogBuffer)

/-- Map lookup. -/
def lookupBuf (table : PendingTable) (k : String) : Option LogBuffer :=
  match table with
  | [] => none
  | (k', v) :: rest => if k' = k then some v else lookupBuf rest k

/-- Map update (replace in place, or append when the key is new). -/
def setBuf (table : PendingTable) (k : String) (v : LogBuffer) : PendingTable :=
  match table with
  | [] => [(k, v)]
  | (k', v') :: rest =>
    if k' = k then (k, v) :: rest else (k', v') :: setBuf rest k v

/-- Observable actions of the reassembly goroutine, in program order:
handing an event to a logstash client, sending a cursor on `cursorChan`,
incrementing the `MessagesPublished` counter, updating the
`MessageConsumptionDelay` gauge. -/
inductive Output where
  | publish (part : Nat) (ev : MapStr)
  | sendCursor (c : String)
  | incPublished
  | updateDelay (d : Int)
  deriving DecidableEq, Repr

/-- The guard of `flushOrBufferLogs`: the message is non-empty and its
first byte is a space or a horizontal tab. -/
def isContinuation (m : String) : Bool :=
  m != "" &&
    (match m.toList with
    | c :: _ => c == ' ' || c == '\t'
    | [] => false)

/-- The function `flushOrBufferLogs` of `beater/extension.go` as a step on
the pending table, returning the new table and the emitted actions.
`none` models a Go panic (a required key absent where the source performs
an unchecked type assertion).  `now` is the `time.Time` instant and
`nowUnix` the value of `time.Now().Unix()` used by the delay gauge. -/
def flushOrBufferLogs (metricsEnabled : Bool) (now nowUnix : Int)
    (numPartitions : Nat) (table : PendingTable) (event : MapStr) :
    Option (PendingTable × List Output) :=
  match event.message, event.logBufferingType with
  | some newLogMessage, some logType =>
    if isContinuation newLogMessage then
      match lookupBuf table logType with
      | some oldLog =>
        match oldLog.logEvent.message with
        | some oldMessage =>
          some (setBuf table logType
            ⟨now,
              { oldLog.logEvent with
                message := some (oldMessage ++ "\n" ++ newLogMessage) },
              oldLog.logType⟩, [])
        | none => none
      | none =>
        some (setBuf table logType ⟨now, event, logType⟩, [])
    else
      match lookupBuf table logType with
      | some oldLogBuffer =>
        if metricsEnabled then
          match event.utcTimestamp with
          | some ts =>
            some (setBuf table logType ⟨now, event, logType⟩,
              [Output.publish (getPartition oldLogBuffer numPartitions)
                  oldLogBuffer.logEvent,
                Output.incPublished,
                Output.updateDelay (nowUnix - Int.tdiv ts 1000000)])
          | none => none
        else
          some (setBuf table logType ⟨now, event, logType⟩,
            [Output.publish (getPartition oldLogBuffer numPartitions)
                oldLogBuffer.logEvent])
      | none => some (setBuf table logType ⟨now, event, logType⟩, [])
  | _, _ => none

/-- The function `flushStaleLogMessages` of `beater/extension.go`: every
slot whose last arrival is at least `flushLogInterval` old is published,
removed from the table, and its cursor is sent on `cursorChan`. -/
def flushStaleLogMessages (now flushLogInterval : Int) (numPartitions : Nat)
    (table : PendingTable) : Option (PendingTable × List Output) :=
  match table with
  | [] => some ([], [])
  | (logType, logBuffer) :: rest =>
    if flushLogInterval ≤ now - logBuffer.time then
      match logBuffer.logEvent.cursor with
      | some c =>
        (flushStaleLogMessages now flushLogInterval numPartitions rest).map
          (fun r => (r.1,
            Output.publish (getPartition logBuffer numPartitions)
                logBuffer.logEvent ::
              Output.sendCursor c :: r.2))
      | none => none
    else
      (flushStaleLogMessages now flushLogInterval numPartitions rest).map
        (fun r => ((logType, logBuffer) :: r.1, r.2))

/-- Number of publish actions in an action list. -/
def countPublish : List Output → Nat
  | [] => 0
  | Output.publish _ _ :: rest => countPublish rest + 1
  | _ :: rest => countPublish rest

/-- Number of cursor sends in an action list. -/
def countCursorSends : List Output → Nat
  | [] => 0
  | Output.sendCursor _ :: rest => countCursorSends rest + 1
  | _ :: rest => countCursorSends rest

/-- Number of `MessagesPublished` increments in an action list. -/
def countInc : List Output → Nat
  | [] => 0
  | Output.incPublished :: rest => countInc rest + 1
  | _ :: rest => countInc rest

/-- Every publish action is immediately followed by a send of the
published event's own cursor. -/
def publishFollowedByCursor : List Output → Bool
  | [] => true
  | Output.publish _ ev :: rest =>
    match rest with
    | Output.sendCursor c :: rest2 =>
      ev.cursor == some c && publishFollowedByCursor rest2
    | _ => false
  | _ :: rest => publishFollowedByCursor rest

/-- In every action list emitted by `flushOrBufferLogs` there is no cursor
send: the eviction path never feeds the checkpointer. -/
theorem flushOrBufferLogs_no_cursor_send (metricsEnabled : Bool)
    (now nowUnix : Int) (N : Nat) (table : PendingTable) (event : MapStr)
    (r : PendingTable × List Output)
    (h : flushOrBufferLogs metricsEnabled now nowUnix N table event = some r) :
    countCursorSends r.2 = 0 := by
  unfold flushOrBufferLogs at h
  split at h
  · rename_i m t hm ht
    split at h
    · cases hl : lookupBuf table t with
      | some oldLog =>
        simp only [hl] at h
        cases hom : oldLog.logEvent.message with
        | some om =>
          simp only [hom] at h
          injection h with h2
          subst h2
          simp [countCursorSends]
        | none => simp only [hom] at h; exact Option.noConfusion h
      | none =>
        simp only [hl] at h
        injection h with h2
        subst h2
        simp [countCursorSends]
    · cases hl : lookupBuf table t with
      | some oldLog =>
        simp only [hl] at h
        split at h
        · cases hts : event.utcTimestamp with
          | some ts =>
            simp only [hts] at h
            injection h with h2
            subst h2
            simp [countCursorSends]
          | none => simp only [hts] at h; exact Option.noConfusion h
        · injection h with h2
          subst h2
          simp [countCursorSends]
      | none =>
        simp only [hl] at h
        injection h with h2
        subst h2
        simp [countCursorSends]
  · exact Option.noConfusion h

/-- In every action list emitted by `flushStaleLogMessages`, each publish
is immediately followed by the send of the published slot's cursor. -/
theorem flushStaleLogMessages_paired (now interval : Int) (N : Nat) :
    ∀ (table : PendingTable) (r : PendingTable × List Output),
      flushStaleLogMessages now interval N table = some r →
      publishFollowedByCursor r.2 = true := by
  intro table
  induction table with
  | nil =>
    intro r h
    simp only [flushStaleLogMessages] at h
    injection h with h2
    subst h2
    rfl
  | cons hd rest ih =>
    intro r h
    obtain ⟨logType, lb⟩ := hd
    simp only [flushStaleLogMessages] at h
    split at h
    · split at h
      · rename_i c hc
        cases hrec : flushStaleLogMessages now interval N rest with
        | none => rw [hrec] at h; exact Option.noConfusion h
        | some r' =>
          rw [hrec] at h
          injection h with h2
          subst h2
          simp only [publishFollowedByCursor, hc, beq_self_eq_true,
            Bool.true_and]
          exact ih r' hrec
      · exact Option.noConfusion h
    · cases hrec : flushStaleLogMessages now interval N rest with
      | none => rw [hrec] at h; exact Option.noConfusion h
      | some r' =>
        rw [hrec] at h
        injection h with h2
        subst h2
        exact ih r' hrec

/-- Slot sitting in the pending table in the C2 scenario. -/
def c2OldEvent : MapStr :=
  { message := some "old line", logBufferingType := some "p",
    cursor := some "c0", utcTimestamp := some 41000000 }

/-- Fresh incoming event of the C2 scenario (same key, fresh line). -/
def c2FreshEvent : MapStr :=
  { message := some "new line", logBufferingType := some "p",
    cursor := some "c1", utcTimestamp := some 42000000 }

/-- C2 counterexample: a fresh line for key `"p"` evicts and publishes the
pending slot, yet the emitted actions contain no cursor send at all — the
eviction path of `flushOrBufferLogs` never notifies the checkpointer, so
not every published event's cursor reaches the cursor channel. -/
theorem c2_eviction_publish_sends_no_cursor :
    (flushOrBufferLogs false 5 5 1 [("p", ⟨0, c2OldEvent, "p"⟩)] c2FreshEvent).map
        (fun r => (countPublish r.2, countCursorSends r.2)) =
      some (1, 0) := by decide

/-- C2 (amended): only the periodic stale flush feeds the checkpointer:
in its action list every publish is immediately followed by the send of
the published slot's cursor, while the fresh-line-eviction path of
`flushOrBufferLogs` sends no cursor for the events it publishes. -/
theorem c2_cursor_sends :
    (∀ (now interval : Int) (N : Nat) (table : PendingTable)
        (r : PendingTable × List Output),
        flushStaleLogMessages now interval N table = some r →
        publishFollowedByCursor r.2 = true)
    ∧ (∀ (metricsEnabled : Bool) (now nowUnix : Int) (N : Nat)
        (table : PendingTable) (event : MapStr)
        (r : PendingTable × List Output),
        flushOrBufferLogs metricsEnabled now nowUnix N table event = some r →
        countCursorSends r.2 = 0) :=
  ⟨fun now interval N => flushStaleLogMessages_paired now interval N,
    fun me now nowUnix N table event r h =>
      flushOrBufferLogs_no_cursor_send me now nowUnix N table event r h⟩

/-- C2 witness at a concrete input: one stale slot is published with its
cursor sent right after, and a concrete eviction emits no cursor send. -/
theorem c2_cursor_sends_witness :
    publishFollowedByCursor
        [Output.publish 0 c2OldEvent, Output.sendCursor "c0"] = true ∧
      countCursorSends [Output.publish 0 c2OldEvent] = 0 :=
  ⟨c2_cursor_sends.1 10 1 1 [("p", ⟨0, c2OldEvent, "p"⟩)]
      ([], [Output.publish 0 c2OldEvent, Output.sendCursor "c0"]) (by decide),
    c2_cursor_sends.2 false 5 5 1 [("p", ⟨0, c2OldEvent, "p"⟩)] c2FreshEvent
      ([("p", ⟨5, c2FreshEvent, "p"⟩)], [Output.publish 0 c2OldEvent])
      (by decide)⟩

/-- Looking up a key right after setting it yields the stored buffer. -/
theorem lookupBuf_setBuf (table : PendingTable) (k : String) (v : LogBuffer) :
    lookupBuf (setBuf table k v) k = some v := by
  induction table with
  | nil => simp [setBuf, lookupBuf]
  | cons hd rest ih =>
    obtain ⟨k', v'⟩ := hd
    by_cases hk : k' = k
    · simp [setBuf, lookupBuf, hk]
    · simp [setBuf, lookupBuf, hk, ih]

/-- Branch equation: fresh line, existing slot, metrics disabled. -/
theorem flushOrBufferLogs_fresh_found_nometrics (now nowUnix : Int) (N : Nat)
    (table : PendingTable) (event : MapStr) (m t : String) (old : LogBuffer)
    (hm : event.message = some m) (ht : event.logBufferingType = some t)
    (hc : isContinuation m = false) (hl : lookupBuf table t = some old) :
    flushOrBufferLogs false now nowUnix N table event =
      some (setBuf table t ⟨now, event, t⟩,
        [Output.publish (getPartition old N) old.logEvent]) := by
  unfold flushOrBufferLogs
  simp only [hm, ht, hc, Bool.false_eq_true, if_false, hl]

/-- Branch equation: fresh line, existing slot, metrics enabled, timestamp
present on the incoming event. -/
theorem flushOrBufferLogs_fresh_found_metrics (now nowUnix : Int) (N : Nat)
    (table : PendingTable) (event : MapStr) (m t : String) (old : LogBuffer)
    (ts : Int)
    (hm : event.message = some m) (ht : event.logBufferingType = some t)
    (hc : isContinuation m = false) (hl : lookupBuf table t = some old)
    (hts : event.utcTimestamp = some ts) :
    flushOrBufferLogs true now nowUnix N table event =
      some (setBuf table t ⟨now, event, t⟩,
        [Output.publish (getPartition old N) old.logEvent,
          Output.incPublished,
          Output.updateDelay (nowUnix - Int.tdiv ts 1000000)]) := by
  unfold flushOrBufferLogs
  simp only [hm, ht, hc, Bool.false_eq_true, if_false, hl, if_true, hts]

/-- Branch equation: fresh line, no existing slot. -/
theorem flushOrBufferLogs_fresh_notfound (me : Bool) (now nowUnix : Int)
    (N : Nat) (table : PendingTable) (event : MapStr) (m t : String)
    (hm : event.message = some m) (ht : event.logBufferingType = some t)
    (hc : isContinuation m = false) (hl : lookupBuf table t = none) :
    flushOrBufferLogs me now nowUnix N table event =
      some (setBuf table t ⟨now, event, t⟩, []) := by
  unfold flushOrBufferLogs
  simp only [hm, ht, hc, Bool.false_eq_true, if_false, hl]

/-- Branch equation: continuation line, existing slot with a message. -/
theorem flushOrBufferLogs_cont_found (me : Bool) (now nowUnix : Int) (N : Nat)
    (table : PendingTable) (event : MapStr) (m t om : String)
    (old : LogBuffer)
    (hm : event.message = some m) (ht : event.logBufferingType = some t)
    (hc : isContinuation m = true) (hl : lookupBuf table t = some old)
    (hom : old.logEvent.message = some om) :
    flushOrBufferLogs me now nowUnix N table event =
      some (setBuf table t
        ⟨now, { old.logEvent with message := some (om ++ "\n" ++ m) },
          old.logType⟩, []) := by
  unfold flushOrBufferLogs
  simp only [hm, ht, hc, if_true, hl, hom]

/-- Branch equation: continuation line, no existing slot. -/
theorem flushOrBufferLogs_cont_notfound (me : Bool) (now nowUnix : Int)
    (N : Nat) (table : PendingTable) (event : MapStr) (m t : String)
    (hm : event.message = some m) (ht : event.logBufferingType = some t)
    (hc : isContinuation m = true) (hl : lookupBuf table t = none) :
    flushOrBufferLogs me now nowUnix N table event =
      some (setBuf table t ⟨now, event, t⟩, []) := by
  unfold flushOrBufferLogs
  simp only [hm, ht, hc, if_true, hl]

/-- Branch equation: fresh line, existing slot, metrics enabled but no
timestamp on the incoming event — the unchecked assertion
`event["utcTimestamp"].(int64)` panics, modelled as `none`. -/
theorem flushOrBufferLogs_fresh_found_nots (now nowUnix : Int) (N : Nat)
    (table : PendingTable) (event : MapStr) (m t : String) (old : LogBuffer)
    (hm : event.message = some m) (ht : event.logBufferingType = some t)
    (hc : isContinuation m = false) (hl : lookupBuf table t = some old)
    (hts : event.utcTimestamp = none) :
    flushOrBufferLogs true now nowUnix N table event = none := by
  unfold flushOrBufferLogs
  simp only [hm, ht, hc, Bool.false_eq_true, if_false, hl, if_true, hts]

/-- Branch equation: continuation line, existing slot whose event lacks a
message — the unchecked assertion `oldLog.logEvent["message"].(string)`
panics, modelled as `none`. -/
theorem flushOrBufferLogs_cont_found_nomsg (me : Bool) (now nowUnix : Int)
    (N : Nat) (table : PendingTable) (event : MapStr) (m t : String)
    (old : LogBuffer)
    (hm : event.message = some m) (ht : event.logBufferingType = some t)
    (hc : isContinuation m = true) (hl : lookupBuf table t = some old)
    (hom : old.logEvent.message = none) :
    flushOrBufferLogs me now nowUnix N table event = none := by
  unfold flushOrBufferLogs
  simp only [hm, ht, hc, if_true, hl, hom]

/-- A message is a continuation exactly when it is non-empty and starts
with a space or a horizontal tab. -/
theorem isContinuation_iff (s : String) :
    isContinuation s = true ↔
      s ≠ "" ∧ (s.toList.head? = some ' ' ∨ s.toList.head? = some '\t') := by
  unfold isContinuation
  rw [Bool.and_eq_true, bne_iff_ne]
  constructor
  · rintro ⟨h1, h2⟩
    refine ⟨h1, ?_⟩
    cases hs : s.toList with
    | nil => rw [hs] at h2; exact absurd h2 (by simp)
    | cons c cs =>
      rw [hs] at h2
      simp only [Bool.or_eq_true, beq_iff_eq] at h2
      rcases h2 with h2 | h2 <;> simp [hs, h2]
  · rintro ⟨h1, h2⟩
    refine ⟨h1, ?_⟩
    cases hs : s.toList with
    | nil => rw [hs] at h2; simp at h2
    | cons c cs =>
      rw [hs] at h2
      simp only [List.head?_cons, Option.some.injEq] at h2
      rcases h2 with h2 | h2 <;> simp [hs, h2]

/-- C4: behaviour of one reassembly step on an incoming event whose
`message` is `m` and whose `logBufferingType` is `t`: the continuation
test is a non-empty message starting with space or tab; a fresh line
evicts and publishes any existing slot for `t` and becomes the slot
content with arrival time `now` (and is simply installed when no slot
exists); a continuation appends newline plus message to an existing
slot, resets its arrival time and keeps the slot's cursor (the cursor of
the first line), and is installed as a new slot when none exists. -/
theorem c4_reassembly_step (me : Bool) (now nowUnix : Int) (N : Nat)
    (table : PendingTable) (event : MapStr) (m t : String)
    (hm : event.message = some m) (ht : event.logBufferingType = some t) :
    (isContinuation m = true ↔
      m ≠ "" ∧ (m.toList.head? = some ' ' ∨ m.toList.head? = some '\t'))
    ∧ (∀ (old : LogBuffer) (r : PendingTable × List Output),
        isContinuation m = false → lookupBuf table t = some old →
        flushOrBufferLogs me now nowUnix N table event = some r →
        r.1 = setBuf table t ⟨now, event, t⟩ ∧
        lookupBuf r.1 t = some ⟨now, event, t⟩ ∧
        r.2.head? = some (Output.publish (getPartition old N) old.logEvent))
    ∧ (isContinuation m = false → lookupBuf table t = none →
        flushOrBufferLogs me now nowUnix N table event =
          some (setBuf table t ⟨now, event, t⟩, []) ∧
        lookupBuf (setBuf table t ⟨now, event, t⟩) t = some ⟨now, event, t⟩)
    ∧ (∀ (old : LogBuffer) (om : String),
        isContinuation m = true → lookupBuf table t = some old →
        old.logEvent.message = some om →
        flushOrBufferLogs me now nowUnix N table event =
          some (setBuf table t
            ⟨now, { old.logEvent with message := some (om ++ "\n" ++ m) },
              old.logType⟩, []) ∧
        lookupBuf (setBuf table t
            ⟨now, { old.logEvent with message := some (om ++ "\n" ++ m) },
              old.logType⟩) t =
          some ⟨now, { old.logEvent with message := some (om ++ "\n" ++ m) },
            old.logType⟩ ∧
        ({ old.logEvent with
            message := some (om ++ "\n" ++ m) } : MapStr).cursor =
          old.logEvent.cursor)
    ∧ (isContinuation m = true → lookupBuf table t = none →
        flushOrBufferLogs me now nowUnix N table event =
          some (setBuf table t ⟨now, event, t⟩, [])) := by
  refine ⟨isContinuation_iff m, ?_, ?_, ?_, ?_⟩
  · intro old r hc hl hr
    cases me with
    | false =>
      rw [flushOrBufferLogs_fresh_found_nometrics now nowUnix N table event
        m t old hm ht hc hl] at hr
      injection hr with hr2
      subst hr2
      exact ⟨rfl, lookupBuf_setBuf table t _, rfl⟩
    | true =>
      cases hts : event.utcTimestamp with
      | some ts =>
        rw [flushOrBufferLogs_fresh_found_metrics now nowUnix N table event
          m t old ts hm ht hc hl hts] at hr
        injection hr with hr2
        subst hr2
        exact ⟨rfl, lookupBuf_setBuf table t _, rfl⟩
      | none =>
        rw [flushOrBufferLogs_fresh_found_nots now nowUnix N table event
          m t old hm ht hc hl hts] at hr
        exact Option.noConfusion hr
  · intro hc hl
    exact ⟨flushOrBufferLogs_fresh_notfound me now nowUnix N table event
      m t hm ht hc hl, lookupBuf_setBuf table t _⟩
  · intro old om hc hl hom
    exact ⟨flushOrBufferLogs_cont_found me now nowUnix N table event
      m t om old hm ht hc hl hom, lookupBuf_setBuf table t _, rfl⟩
  · intro hc hl
    exact flushOrBufferLogs_cont_notfound me now nowUnix N table event
      m t hm ht hc hl

/-- Slot pending in the C4 witness scenario (first line of a burst). -/
def c4Slot : LogBuffer :=
  ⟨0, { message := some "Exception:", logBufferingType := some "proc-A",
        cursor := some "cur-1", utcTimestamp := some 1000000 }, "proc-A"⟩

/-- Continuation line arriving in the C4 witness scenario. -/
def c4Cont : MapStr :=
  { message := some "\tat foo()", logBufferingType := some "proc-A",
    cursor := some "cur-2", utcTimestamp := some 2000000 }

/-- C4 witness at a concrete input: the continuation is appended to the
pending slot with a newline separator and nothing is published. -/
theorem c4_reassembly_step_witness :
    flushOrBufferLogs false 7 7 4 [("proc-A", c4Slot)] c4Cont =
      some (setBuf [("proc-A", c4Slot)] "proc-A"
        ⟨7, { c4Slot.logEvent with
            message := some ("Exception:" ++ "\n" ++ "\tat foo()") },
          c4Slot.logType⟩, []) :=
  ((c4_reassembly_step false 7 7 4 [("proc-A", c4Slot)] c4Cont
      "\tat foo()" "proc-A" rfl rfl).2.2.2.1 c4Slot "Exception:"
    (by decide) (by decide) rfl).1

/-- With metrics enabled, each action list of `flushOrBufferLogs` has as
many counter increments as publishes. -/
theorem flushOrBufferLogs_inc_eq_publish (now nowUnix : Int) (N : Nat)
    (table : PendingTable) (event : MapStr) (r : PendingTable × List Output)
    (h : flushOrBufferLogs true now nowUnix N table event = some r) :
    countInc r.2 = countPublish r.2 := by
  unfold flushOrBufferLogs at h
  split at h
  · rename_i m t hm ht
    split at h
    · cases hl : lookupBuf table t with
      | some oldLog =>
        simp only [hl] at h
        cases hom : oldLog.logEvent.message with
        | some om =>
          simp only [hom] at h
          injection h with h2
          subst h2
          rfl
        | none => simp only [hom] at h; exact Option.noConfusion h
      | none =>
        simp only [hl] at h
        injection h with h2
        subst h2
        rfl
    · cases hl : lookupBuf table t with
      | some oldLog =>
        simp only [hl, if_true] at h
        cases hts : event.utcTimestamp with
        | some ts =>
          simp only [hts] at h
          injection h with h2
          subst h2
          rfl
        | none => simp only [hts] at h; exact Option.noConfusion h
      | none =>
        simp only [hl] at h
        injection h with h2
        subst h2
        rfl
  · exact Option.noConfusion h

/-- The periodic stale flush never touches the counter. -/
theorem flushStaleLogMessages_no_inc (now interval : Int) (N : Nat) :
    ∀ (table : PendingTable) (r : PendingTable × List Output),
      flushStaleLogMessages now interval N table = some r →
      countInc r.2 = 0 := by
  intro table
  induction table with
  | nil =>
    intro r h
    simp only [flushStaleLogMessages] at h
    injection h with h2
    subst h2
    rfl
  | cons hd rest ih =>
    intro r h
    obtain ⟨logType, lb⟩ := hd
    simp only [flushStaleLogMessages] at h
    split at h
    · split at h
      · rename_i c hc
        cases hrec : flushStaleLogMessages now interval N rest with
        | none => rw [hrec] at h; exact Option.noConfusion h
        | some r' =>
          rw [hrec] at h
          injection h with h2
          subst h2
          simpa [countInc] using ih r' hrec
      · exact Option.noConfusion h
    · cases hrec : flushStaleLogMessages now interval N rest with
      | none => rw [hrec] at h; exact Option.noConfusion h
      | some r' =>
        rw [hrec] at h
        injection h with h2
        subst h2
        exact ih r' hrec

/-- C8: with metrics enabled, `MessagesPublished` is incremented exactly
once per publish of `flushOrBufferLogs` (whose only publishes are
fresh-line evictions, where the count is exactly `1`), and is never
incremented on continuation appends or by the periodic stale flush. -/
theorem c8_counter_once_per_eviction :
    (∀ (now nowUnix : Int) (N : Nat) (table : PendingTable) (event : MapStr)
        (r : PendingTable × List Output),
        flushOrBufferLogs true now nowUnix N table event = some r →
        countInc r.2 = countPublish r.2)
    ∧ (∀ (now nowUnix : Int) (N : Nat) (table : PendingTable)
        (event : MapStr) (m t : String) (old : LogBuffer) (ts : Int)
        (r : PendingTable × List Output),
        event.message = some m → event.logBufferingType = some t →
        isContinuation m = false → lookupBuf table t = some old →
        event.utcTimestamp = some ts →
        flushOrBufferLogs true now nowUnix N table event = some r →
        countInc r.2 = 1)
    ∧ (∀ (me : Bool) (now nowUnix : Int) (N : Nat) (table : PendingTable)
        (event : MapStr) (m t : String) (om : String) (old : LogBuffer)
        (r : PendingTable × List Output),
        event.message = some m → event.logBufferingType = some t →
        isContinuation m = true → lookupBuf table t = some old →
        old.logEvent.message = some om →
        flushOrBufferLogs me now nowUnix N table event = some r →
        countInc r.2 = 0)
    ∧ (∀ (now interval : Int) (N : Nat) (table : PendingTable)
        (r : PendingTable × List Output),
        flushStaleLogMessages now interval N table = some r →
        countInc r.2 = 0) := by
  refine ⟨fun now nowUnix N table event r h =>
      flushOrBufferLogs_inc_eq_publish now nowUnix N table event r h,
    ?_, ?_,
    fun now interval N table r h =>
      flushStaleLogMessages_no_inc now interval N table r h⟩
  · intro now nowUnix N table event m t old ts r hm ht hc hl hts h
    rw [flushOrBufferLogs_fresh_found_metrics now nowUnix N table event
      m t old ts hm ht hc hl hts] at h
    injection h with h2
    subst h2
    rfl
  · intro me now nowUnix N table event m t om old r hm ht hc hl hom h
    rw [flushOrBufferLogs_cont_found me now nowUnix N table event
      m t om old hm ht hc hl hom] at h
    injection h with h2
    subst h2
    rfl

/-- C8 witness at a concrete input: a concrete fresh-line eviction with
metrics enabled increments the counter exactly once. -/
theorem c8_counter_once_per_eviction_witness :
    countInc
        [Output.publish (getPartition c4Slot 4) c4Slot.logEvent,
          Output.incPublished,
          Output.updateDelay ((9 : Int) - Int.tdiv 2000000 1000000)] = 1 :=
  c8_counter_once_per_eviction.2.1 9 9 4 [("proc-A", c4Slot)]
    { message := some "next line", logBufferingType := some "proc-A",
      cursor := some "cur-9", utcTimestamp := some 2000000 }
    "next line" "proc-A" c4Slot 2000000
    (setBuf [("proc-A", c4Slot)] "proc-A"
      ⟨9, { message := some "next line", logBufferingType := some "proc-A",
            cursor := some "cur-9", utcTimestamp := some 2000000 },
        "proc-A"⟩,
      [Output.publish (getPartition c4Slot 4) c4Slot.logEvent,
        Output.incPublished,
        Output.updateDelay ((9 : Int) - Int.tdiv 2000000 1000000)])
    rfl rfl (by decide) (by decide) rfl
    (flushOrBufferLogs_fresh_found_metrics 9 9 4 [("proc-A", c4Slot)]
      { message := some "next line", logBufferingType := some "proc-A",
        cursor := some "cur-9", utcTimestamp := some 2000000 }
      "next line" "proc-A" c4Slot 2000000 rfl rfl (by decide) (by decide) rfl)

/-- Slot pending in the C10 witness scenario; its own timestamp
(`55000000`, i.e. second `55`) differs from the incoming event's. -/
def c10Slot : LogBuffer :=
  ⟨0, { message := some "old", logBufferingType := some "proc-B",
        cursor := some "cur-old", utcTimestamp := some 55000000 }, "proc-B"⟩

/-- Fresh event arriving in the C10 witness scenario (timestamp second 2). -/
def c10Fresh : MapStr :=
  { message := some "next", logBufferingType := some "proc-B",
    cursor := some "cur-new", utcTimestamp := some 2000000 }

/-- C10: when a fresh line evicts a pending slot with metrics enabled, the
`MessageConsumptionDelay` gauge is updated with `now` minus the incoming
event's `utcTimestamp` divided by `1e6` — the value is determined by the
incoming event's timestamp `ts`, whatever the timestamp of the evicted
slot `old` may be. -/
theorem c10_delay_gauge_uses_incoming_timestamp
    (now nowUnix : Int) (N : Nat) (table : PendingTable) (event : MapStr)
    (m t : String) (old : LogBuffer) (ts : Int)
    (hm : event.message = some m) (ht : event.logBufferingType = some t)
    (hc : isContinuation m = false) (hl : lookupBuf table t = some old)
    (hts : event.utcTimestamp = some ts) :
    flushOrBufferLogs true now nowUnix N table event =
      some (setBuf table t ⟨now, event, t⟩,
        [Output.publish (getPartition old N) old.logEvent,
          Output.incPublished,
          Output.updateDelay (nowUnix - Int.tdiv ts 1000000)]) :=
  flushOrBufferLogs_fresh_found_metrics now nowUnix N table event
    m t old ts hm ht hc hl hts

/-- C10 witness at a concrete input: the gauge update is `100 - 2 = 98`,
computed from the incoming event's second `2`, not from the evicted
slot's second `55`. -/
theorem c10_delay_gauge_uses_incoming_timestamp_witness :
    flushOrBufferLogs true 7 100 4 [("proc-B", c10Slot)] c10Fresh =
      some (setBuf [("proc-B", c10Slot)] "proc-B" ⟨7, c10Fresh, "proc-B"⟩,
        [Output.publish (getPartition c10Slot 4) c10Slot.logEvent,
          Output.incPublished, Output.updateDelay 98]) := by
  rw [c10_delay_gauge_uses_incoming_timestamp 7 100 4 [("proc-B", c10Slot)]
    c10Fresh "next" "proc-B" c10Slot 2000000 rfl rfl (by decide) (by decide)
    rfl]
  decide

/-- The configuration record of the `config` package (durations are
`time.Duration` nanosecond counts, modelled as `Int`; the wavefront tag
map is not needed by any claim and is omitted). -/
structure Config where
  SeekPosition : String
  ConvertToNumbers : Bool := false
  CleanFieldNames : Bool := false
  WriteCursorState : Bool := false
  CursorStateFile : String := ""
  CursorFlushPeriod : Int := 0
  CursorSeekFallback : String
  MoveMetadataLocation : String := ""
  DefaultType : String := ""
  Units : List String := []
  MetricsEnabled : Bool := false
  FlushLogInterval : Int := 0
  MetricsInterval : Int := 0
  WavefrontCollector : String := ""
  InfluxDBURL : String := ""
  InfluxDatabase : String := ""
  deriving DecidableEq, Repr

/-- `DefaultConfig` of the `config` package. -/
def DefaultConfig : Config :=
  { SeekPosition := "tail",
    CursorStateFile := ".journalbeat-cursor-state",
    CursorFlushPeriod := 5000000000,
    CursorSeekFallback := "tail",
    DefaultType := "journal",
    MetricsEnabled := false,
    FlushLogInterval := 30000000000,
    MetricsInterval := 10000000000,
    WavefrontCollector := "",
    InfluxDBURL := "",
    InfluxDatabase := "" }

/-- The character list contains two consecutive dots (the `\.\x7b2,\x7d`
alternative of the validation regular expression, as an unanchored
search). -/
def hasTwoConsecutiveDots : List Char → Bool
  | c1 :: c2 :: rest =>
    (c1 == '.' && c2 == '.') || hasTwoConsecutiveDots (c2 :: rest)
  | _ => false

/-- An unanchored match of the regular expression `\.\x7b2,\x7d|\.$`: the
string contains two or more consecutive dots, or ends with a dot. -/
def metadataLocationInvalid (s : String) : Bool :=
  hasTwoConsecutiveDots s.toList || s.toList.getLast? == some '.'

/-- `Config.Validate` of the `config` package: the first failing check
yields an error, otherwise validation succeeds (`none`). -/
def Validate (config : Config) : Option String :=
  if config.MetricsEnabled &&
      (config.WavefrontCollector == "" && config.InfluxDBURL == "") then
    some "Metrics enabled but both wavefront collector and influx url are empty"
  else if config.MoveMetadataLocation != "" &&
      metadataLocationInvalid config.MoveMetadataLocation then
    some ("Wrong location for the Journal Metadata: " ++
      config.MoveMetadataLocation)
  else if !(config.SeekPosition == "cursor" ||
      config.SeekPosition == "head" || config.SeekPosition == "tail") then
    some "Invalid Seek Position"
  else if !(config.CursorSeekFallback == "none" ||
      config.CursorSeekFallback == "head" ||
      config.CursorSeekFallback == "tail") then
    some "Invalid Cursor Seek Fallback Position"
  else
    none

/-- `Validate` errors exactly when one of its four checks fires, as a
boolean equation. -/
theorem validate_isSome (config : Config) :
    (Validate config).isSome =
      ((config.MetricsEnabled &&
          (config.WavefrontCollector == "" && config.InfluxDBURL == ""))
        || (config.MoveMetadataLocation != "" &&
            metadataLocationInvalid config.MoveMetadataLocation)
        || (!(config.SeekPosition == "cursor" ||
            config.SeekPosition == "head" || config.SeekPosition == "tail"))
        || (!(config.CursorSeekFallback == "none" ||
            config.CursorSeekFallback == "head" ||
            config.CursorSeekFallback == "tail"))) := by
  unfold Validate
  split_ifs with h1 h2 h3 h4
  · simp [h1]
  · simp [h2]
  · simp [h1, h2, h3]
  · simp [h1, h2, h3, h4]
  · simp [h1, h2, h3, h4]

/-- C5: `Validate` errors exactly when metrics are enabled with both
collector endpoints empty, or the non-empty metadata location matches
the regular expression (two consecutive dots somewhere, or a trailing
dot), or the seek position is not `cursor`/`head`/`tail`, or the
fallback is not `none`/`head`/`tail`; `"journal.."` and `"journal."` are
rejected while `"journal.meta"` is accepted. -/
theorem c5_validate_error_iff :
    (∀ config : Config,
      (Validate config).isSome = true ↔
        (config.MetricsEnabled = true ∧ config.WavefrontCollector = "" ∧
          config.InfluxDBURL = "")
        ∨ (config.MoveMetadataLocation ≠ "" ∧
            (hasTwoConsecutiveDots config.MoveMetadataLocation.toList = true ∨
              config.MoveMetadataLocation.toList.getLast? = some '.'))
        ∨ (config.SeekPosition ≠ "cursor" ∧ config.SeekPosition ≠ "head" ∧
            config.SeekPosition ≠ "tail")
        ∨ (config.CursorSeekFallback ≠ "none" ∧
            config.CursorSeekFallback ≠ "head" ∧
            config.CursorSeekFallback ≠ "tail"))
    ∧ (Validate
        { DefaultConfig with MoveMetadataLocation := "journal.." }).isSome
      = true
    ∧ (Validate
        { DefaultConfig with MoveMetadataLocation := "journal." }).isSome
      = true
    ∧ Validate { DefaultConfig with MoveMetadataLocation := "journal.meta" }
      = none := by
  refine ⟨?_, by decide, by decide, by decide⟩
  intro config
  rw [validate_isSome config]
  unfold metadataLocationInvalid
  simp only [Bool.or_eq_true, Bool.and_eq_true, Bool.not_eq_true',
    Bool.or_eq_false_iff, beq_iff_eq, beq_eq_false_iff_ne, bne_iff_ne,
    ne_eq]
  tauto

/-- C5 witness at a concrete input: the validation outcome for the
default configuration, by the equivalence. -/
theorem c5_validate_error_iff_witness :
    (Validate DefaultConfig).isSome = true ↔
      (DefaultConfig.MetricsEnabled = true ∧
        DefaultConfig.WavefrontCollector = "" ∧
        DefaultConfig.InfluxDBURL = "")
      ∨ (DefaultConfig.MoveMetadataLocation ≠ "" ∧
          (hasTwoConsecutiveDots DefaultConfig.MoveMetadataLocation.toList
              = true ∨
            DefaultConfig.MoveMetadataLocation.toList.getLast? = some '.'))
      ∨ (DefaultConfig.SeekPosition ≠ "cursor" ∧
          DefaultConfig.SeekPosition ≠ "head" ∧
          DefaultConfig.SeekPosition ≠ "tail")
      ∨ (DefaultConfig.CursorSeekFallback ≠ "none" ∧
          DefaultConfig.CursorSeekFallback ≠ "head" ∧
          DefaultConfig.CursorSeekFallback ≠ "tail") :=
  c5_validate_error_iff.1 DefaultConfig

/-- External effects visible to `initJournal`, supplied as oracles:
whether opening the journal succeeds, whether `AddMatch` succeeds per
unit, the contents of the cursor state file (`none` models a read error,
e.g. a missing file), whether `SeekCursor` accepts a given cursor, and
whether `SeekHead`/`SeekTail` succeed. -/
structure JournalWorld where
  newJournalOk : Bool
  addMatchOk : String → Bool
  readCursorFile : Option String
  seekCursorOk : String → Bool
  seekHeadOk : Bool
  seekTailOk : Bool

/-- The `switch position` at the end of `initJournal`: seek to `head` or
`tail`; any other position leaves `err` nil and the function succeeds. -/
def seekToPosition (w : JournalWorld) (position : String) :
    Except String Unit :=
  if position = "head" then
    if w.seekHeadOk then Except.ok ()
    else Except.error "Seeking to a good position in journal failed"
  else if position = "tail" then
    if w.seekTailOk then Except.ok ()
    else Except.error "Seeking to a good position in journal failed"
  else Except.ok ()

/-- `initJournal` of the main beater file, faithful to the source
including its variable shadowing: in the `seek_position = cursor` branch
the `err` from reading the state file (and the one assigned by the
`SeekCursor` attempt) is local to the `if` statement and shadows the
function-scope `err`, so the `return err` guarded by
`CursorSeekFallback == none` returns the outer `err` — which is nil at
that point — and the function reports success. -/
def initJournal (cfg : Config) (w : JournalWorld) : Except String Unit :=
  if !w.newJournalOk then Except.error "NewJournal failed"
  else
    match cfg.Units.find? (fun unit => !(w.addMatchOk unit)) with
    | some unit => Except.error ("Filtering unit " ++ unit ++ " failed")
    | none =>
      if cfg.SeekPosition = "cursor" then
        match w.readCursorFile with
        | some cursor =>
          if w.seekCursorOk cursor then Except.ok ()
          else if cfg.CursorSeekFallback = "none" then
            Except.ok ()
          else seekToPosition w cfg.CursorSeekFallback
        | none =>
          if cfg.CursorSeekFallback = "none" then
            Except.ok ()
          else seekToPosition w cfg.CursorSeekFallback
      else seekToPosition w cfg.SeekPosition

/-- Configuration of the C1 scenario: seek from cursor, fallback `none`. -/
def c1Config : Config :=
  { DefaultConfig with
      SeekPosition := "cursor",
      CursorSeekFallback := "none",
      Units := [] }

/-- C1: with `seek_position = cursor` and `cursor_seek_fallback = none`,
`initJournal` returns success — not a non-nil error — both when the
cursor state file cannot be read and when the source rejects the
persisted cursor, because the read/seek error is assigned to a shadowing
local `err` while the guarded `return err` returns the function-scope
`err`, still nil at that point. -/
theorem c1_fallback_none_reports_success :
    initJournal c1Config
        { newJournalOk := true, addMatchOk := fun _ => true,
          readCursorFile := none, seekCursorOk := fun _ => false,
          seekHeadOk := true, seekTailOk := true } = Except.ok ()
    ∧ initJournal c1Config
        { newJournalOk := true, addMatchOk := fun _ => true,
          readCursorFile := some "s=123", seekCursorOk := fun _ => false,
          seekHeadOk := true, seekTailOk := true } = Except.ok () :=
  ⟨rfl, rfl⟩

/-- A raw journal entry: opaque cursor, the arrival realtime timestamp
(`uint64` microseconds since epoch, modelled as `Nat`) and the field map
(association list, first occurrence wins). -/
structure RawEntry where
  cursor : String
  realtimeTimestamp : Nat
  fields : List (String × String)

/-- Field lookup in a raw entry's map; `none` for an absent key. -/
def lookupField (fields : List (String × String)) (k : String) :
    Option String :=
  match fields with
  | [] => none
  | (k', v) :: rest => if k' = k then some v else lookupField rest k

/-- Go map read: an absent key yields the zero value `""`. -/
def lookupFieldD (fields : List (String × String)) (k : String) : String :=
  (lookupField fields k).getD ""

/-- The journal field holding the container id. -/
def containerIdField : String := "CONTAINER_ID"

/-- The journal field holding the syslog identifier tag. -/
def tagField : String := "SYSLOG_IDENTIFIER"

/-- The journal field holding the process id. -/
def processField : String := "_PID"

/-- The journal field holding the source realtime timestamp. -/
def timestampField : String := "_SOURCE_REALTIME_TIMESTAMP"

/-- `strconv.ParseInt(s, 10, 64)`: optional sign, then one or more
decimal digits, and the value must fit a signed 64-bit integer; `none`
models a parse error. -/
def parseInt64 (s : String) : Option Int :=
  match s.toList with
  | [] => none
  | c :: rest =>
    let signDigits : Bool × List Char :=
      if c = '-' then (true, rest)
      else if c = '+' then (false, rest)
      else (false, c :: rest)
    if signDigits.2.isEmpty || !signDigits.2.all (fun d => d.isDigit) then
      none
    else
      let n : Nat :=
        signDigits.2.foldl (fun acc d => acc * 10 + (d.toNat - 48)) 0
      let v : Int := if signDigits.1 then -(n : Int) else (n : Int)
      if -(2 ^ 63) ≤ v ∧ v ≤ 2 ^ 63 - 1 then some v else none

/-- The Go conversion `int64(u)` of a `uint64` value. -/
def toInt64 (n : Nat) : Int :=
  if n % 2 ^ 64 < 2 ^ 63 then ((n % 2 ^ 64 : Nat) : Int)
  else ((n % 2 ^ 64 : Nat) : Int) - 2 ^ 64

/-- Per-entry normalization performed by the `Run` loop.
`MapStrFromJournalEntry` lives in the external `journal` package (an
external collaborator per the spec) and is abstracted as the `base`
event it returns; `Run` then overwrites `type`, `logBufferingType`,
`input_type`, `cursor` and `utcTimestamp` exactly as in the source. -/
def normalizeEvent (base : MapStr) (rawEvent : RawEntry)
    (defaultType : String) : MapStr :=
  let e :=
    if (lookupField rawEvent.fields containerIdField).isSome then
      { base with
        type := some "container",
        logBufferingType :=
          some (lookupFieldD rawEvent.fields containerIdField) }
    else
      { base with
        type := some (lookupFieldD rawEvent.fields tagField),
        logBufferingType :=
          some (lookupFieldD rawEvent.fields processField) }
  { e with
    input_type := some defaultType,
    cursor := some rawEvent.cursor,
    utcTimestamp := some
      (match lookupField rawEvent.fields timestampField with
      | some tmStr =>
        match parseInt64 tmStr with
        | some tm => tm
        | none => toInt64 rawEvent.realtimeTimestamp
      | none => toInt64 rawEvent.realtimeTimestamp) }

/-- C6: for every raw entry (and whatever the external
`MapStrFromJournalEntry` returned), the normalized event has `type`
`"container"` when a container id is present and the syslog identifier
field otherwise; `logBufferingType` the container id when present and
the `_PID` field otherwise; `cursor` the raw entry's cursor; and
`utcTimestamp` the parsed source-realtime timestamp when present and
parseable, otherwise the arrival realtime timestamp (Go's `int64`
conversion of it, which is the identity below `2 ^ 63`). -/
theorem c6_normalized_event_fields (base : MapStr) (rawEvent : RawEntry)
    (defaultType : String) :
    ((lookupField rawEvent.fields containerIdField).isSome = true →
      (normalizeEvent base rawEvent defaultType).type = some "container")
    ∧ (∀ cid, lookupField rawEvent.fields containerIdField = some cid →
        (normalizeEvent base rawEvent defaultType).logBufferingType =
          some cid)
    ∧ (lookupField rawEvent.fields containerIdField = none →
        (normalizeEvent base rawEvent defaultType).type =
          some (lookupFieldD rawEvent.fields tagField) ∧
        (normalizeEvent base rawEvent defaultType).logBufferingType =
          some (lookupFieldD rawEvent.fields processField))
    ∧ (normalizeEvent base rawEvent defaultType).cursor =
        some rawEvent.cursor
    ∧ (∀ tmStr tm, lookupField rawEvent.fields timestampField = some tmStr →
        parseInt64 tmStr = some tm →
        (normalizeEvent base rawEvent defaultType).utcTimestamp = some tm)
    ∧ (∀ tmStr, lookupField rawEvent.fields timestampField = some tmStr →
        parseInt64 tmStr = none →
        (normalizeEvent base rawEvent defaultType).utcTimestamp =
          some (toInt64 rawEvent.realtimeTimestamp))
    ∧ (lookupField rawEvent.fields timestampField = none →
        (normalizeEvent base rawEvent defaultType).utcTimestamp =
          some (toInt64 rawEvent.realtimeTimestamp))
    ∧ (rawEvent.realtimeTimestamp < 2 ^ 63 →
        toInt64 rawEvent.realtimeTimestamp =
          (rawEvent.realtimeTimestamp : Int)) := by
  refine ⟨?_, ?_, ?_, ?_, ?_, ?_, ?_, ?_⟩
  · intro h
    simp [normalizeEvent, h]
  · intro cid h
    simp [normalizeEvent, h, lookupFieldD]
  · intro h
    constructor <;> simp [normalizeEvent, h]
  · simp [normalizeEvent]
  · intro tmStr tm h1 h2
    simp [normalizeEvent, h1, h2]
  · intro tmStr h1 h2
    simp [normalizeEvent, h1, h2]
  · intro h
    simp [normalizeEvent, h]
  · intro h
    have hmod : rawEvent.realtimeTimestamp % 2 ^ 64 =
        rawEvent.realtimeTimestamp :=
      Nat.mod_eq_of_lt (lt_trans h (by norm_num))
    unfold toInt64
    rw [hmod, if_pos h]

/-- Raw entry of the C6 witness scenario. -/
def c6Raw : RawEntry :=
  { cursor := "cur-42", realtimeTimestamp := 777,
    fields := [("CONTAINER_ID", "abc"),
      ("_SOURCE_REALTIME_TIMESTAMP", "123456")] }

/-- C6 witness at a concrete input: a container entry with a parseable
source timestamp. -/
theorem c6_normalized_event_fields_witness :
    (normalizeEvent {} c6Raw "journal").type = some "container" ∧
    (normalizeEvent {} c6Raw "journal").logBufferingType = some "abc" ∧
    (normalizeEvent {} c6Raw "journal").cursor = some "cur-42" ∧
    (normalizeEvent {} c6Raw "journal").utcTimestamp = some 123456 :=
  ⟨(c6_normalized_event_fields {} c6Raw "journal").1 (by decide),
    (c6_normalized_event_fields {} c6Raw "journal").2.1 "abc" (by decide),
    (c6_normalized_event_fields {} c6Raw "journal").2.2.2.1,
    (c6_normalized_event_fields {} c6Raw "journal").2.2.2.2.1 "123456"
      123456 (by decide) (by decide)⟩

/-- `saveCursorState` inside `writeCursorLoop`: the state file is
rewritten with the cursor only when the cursor is non-empty (a disk
write error, logged and suppressed in the source, is not modelled). -/
def saveCursorState (file : Option String) (cursor : String) :
    Option String :=
  if cursor ≠ "" then some cursor else file

/-- The receive loop of `writeCursorLoop`: the channel contents until
close are a list of cursors, and one boolean per received cursor says
whether the non-blocking tick check fires at that iteration.  Returns
the final value of the loop variable `cursor` and the file state. -/
def writeCursorRec : List Bool → List String → String → Option String →
    String × Option String
  | _, [], cursor, file => (cursor, file)
  | ticks, c :: cs, _, file =>
    match ticks with
    | [] => writeCursorRec [] cs c file
    | tick :: rest =>
      writeCursorRec rest cs c (if tick then saveCursorState file c else file)

/-- `writeCursorLoop` of the main beater file: consume the cursor
channel, then perform the deferred final `saveCursorState` with the last
value of the loop variable (`""` when no cursor was ever received). -/
def writeCursorLoop (ticks : List Bool) (cursors : List String)
    (file : Option String) : Option String :=
  saveCursorState (writeCursorRec ticks cursors "" file).2
    (writeCursorRec ticks cursors "" file).1

/-- After the receive loop, the loop variable holds the last received
cursor. -/
theorem writeCursorRec_fst :
    ∀ (cursors : List String) (ticks : List Bool) (last : String)
      (file : Option String) (c : String),
      cursors.getLast? = some c →
      (writeCursorRec ticks cursors last file).1 = c := by
  intro cursors
  induction cursors with
  | nil => intro ticks last file c h; exact absurd h (by simp)
  | cons hd rest ih =>
    intro ticks last file c h
    cases rest with
    | nil =>
      simp only [List.getLast?_singleton, Option.some.injEq] at h
      subst h
      cases ticks <;> rfl
    | cons hd2 rest2 =>
      have h' : (hd2 :: rest2).getLast? = some c := by
        rwa [List.getLast?_cons_cons] at h
      cases ticks with
      | nil => exact ih [] hd file c h'
      | cons tick ts =>
        exact ih ts hd (if tick then saveCursorState file hd else file) c h'

/-- C7 counterexample: the final write is not unconditional — when the
most recently received cursor is the empty string, `saveCursorState`
skips the write and the state file keeps its previous contents (here:
stays absent), so the most recently received cursor is not persisted. -/
theorem c7_empty_cursor_not_persisted :
    writeCursorLoop [] [""] none = none ∧
    writeCursorLoop [] [""] none ≠ some "" := by
  refine ⟨rfl, by decide⟩

/-- C7 (amended): on channel close, the deferred final write persists
the most recently received cursor whenever it is non-empty, for every
tick schedule and every prior file state. -/
theorem c7_final_write_persists_last_cursor (ticks : List Bool)
    (cursors : List String) (file : Option String) (c : String)
    (hlast : cursors.getLast? = some c) (hne : c ≠ "") :
    writeCursorLoop ticks cursors file = some c := by
  unfold writeCursorLoop
  rw [writeCursorRec_fst cursors ticks "" file c hlast]
  unfold saveCursorState
  rw [if_pos hne]

/-- C7 witness at a concrete input: two cursors received, no tick ever
fired, and the final write persists the last one. -/
theorem c7_final_write_persists_last_cursor_witness :
    writeCursorLoop [] ["s=1", "s=2"] none = some "s=2" :=
  c7_final_write_persists_last_cursor [] ["s=1", "s=2"] none "s=2"
    (by decide) (by decide)

end Journalbeat
